import Mathlib

/-!
Shallow embedding of the conflict-detection and submission-history engine of
the gn-ticket-automator repository.

Conventions of the embedding:
* Timestamps (`datetime` values) are integers.  Session and history start
  times are minutes since an arbitrary epoch, so Python's
  `timedelta(minutes=m)` addition becomes integer addition.  Submission-log
  `submitted_at` stamps are seconds since the epoch, so
  `timedelta(days=d)` becomes `d * 86400`.
* `datetime.isoformat()` is an injective rendering of a timestamp; the
  `conflict_start_iso` / `conflict_end_iso` fields therefore store the
  timestamp itself (`Option Int`) rather than its string image.
* Python attributes that may be `None` are `Option` fields; Python's
  falsy-coalescing `x or d` on an optional is `Option.getD` (note `0 or d`
  and `None or d` both give `d` when `d = 0`, so `getD 0` is exact for
  lengths).
* `str.strip` / `str.lower` are embedded as executable functions on the
  character list of a `String`.
-/

/-- Embedding of Python `str.strip()` (remove leading and trailing
whitespace). -/
def pyStrip (s : String) : String :=
  ⟨((s.data.dropWhile Char.isWhitespace).reverse.dropWhile Char.isWhitespace).reverse⟩

/-- Embedding of Python `str.lower()` (ASCII lowering, which is all the
source compares). -/
def pyLower (s : String) : String :=
  ⟨s.data.map Char.toLower⟩

/-- Embedding of the idiom `(x or "").strip().lower()` applied to an
optional string attribute. -/
def normOpt (s : Option String) : String :=
  pyLower (pyStrip (s.getD ""))

/-- Embedding of `length or 0`: `None` and `0` are falsy and give `0`, any
other integer (negative included) is kept. -/
def effectiveLength (l : Option Int) : Int :=
  l.getD 0

/-- In-memory session record (the duck-typed attribute bag built by the
normalizer, as read and written by `check_for_time_conflicts`). -/
structure Session where
  s_id : String
  title : String
  school : Option String
  teacher : Option String
  status : Option String
  start_time : Option Int
  length : Option Int
  gn_ticket_requested : Bool
  is_conflict : Bool
  conflict_details : String
  conflict_type : Option String
  conflict_start_iso : Option Int
  conflict_end_iso : Option Int
  deriving Repr, DecidableEq

/-- The reset phase at the top of the per-candidate loop
(`conflict.py` lines 19-23). -/
def resetConflictFields (c : Session) : Session :=
  { c with is_conflict := false, conflict_details := "", conflict_type := none,
           conflict_start_iso := none, conflict_end_iso := none }

/-- End of a session interval: `start + timedelta(minutes=length or 0)`. -/
def sessionEnd (start : Int) (length : Option Int) : Int :=
  start + effectiveLength length

/-- Pass-1 match condition on one existing session, given the candidate's
batch ids, school and interval (`conflict.py` lines 31-45): not in the
candidate batch, same school (exact equality of the attributes), status
"booked" after strip/lower, ticket already requested, has a start time, and
strict half-open interval overlap. -/
def pass1MatchB (ids : List String) (school : Option String) (cs ce : Int)
    (e : Session) : Bool :=
  match e.start_time with
  | none => false
  | some es =>
      !(ids.contains e.s_id) && (school == e.school) &&
      (normOpt e.status == "booked") && e.gn_ticket_requested &&
      decide (cs < sessionEnd es e.length) && decide (es < ce)

/-- Annotation written when pass 1 finds its first match
(`conflict.py` lines 46-52). -/
def flagAgainstExisting (c e : Session) : Session :=
  match e.start_time with
  | some es =>
      { c with is_conflict := true, conflict_type := some "time",
               conflict_details :=
                 "Conflicts with previously booked session '" ++ e.title ++ "'.",
               conflict_start_iso := some es,
               conflict_end_iso := some (sessionEnd es e.length) }
  | none => c

/-- Pass 1: first-match scan of the existing sessions
(`conflict.py` lines 29-53). -/
def pass1 (ids : List String) (existing : List Session) (c : Session) : Session :=
  match c.start_time with
  | none => c
  | some cs =>
      let ce := sessionEnd cs c.length
      match existing.find? (pass1MatchB ids c.school cs ce) with
      | some e => flagAgainstExisting c e
      | none => c

/-- Raw `start_time` string of a submission-log dictionary: absent/empty
(falsy), present but not ISO-parsable, or parsable to a timestamp. -/
inductive RawStart where
  | missing
  | unparsable
  | parsed (t : Int)
  deriving Repr, DecidableEq

/-- A historical submission-log entry as the dictionaries returned by
`TicketSubmissionLog.get_entries` (only the keys the detector reads). -/
structure LogEntry where
  session_id : Option String
  title : Option String
  school : Option String
  ticket_id : Option String
  start_time : RawStart
  length : Option Int
  deriving Repr, DecidableEq

/-- `parse_log_start_and_end` (`ticket_submission_log.py` lines 88-107):
`(None, None)` for a missing or unparsable start, otherwise
`(start, start + minutes(length or 0))`; an unparsable length falls back
to 0, which the `Option Int` field also covers. -/
def parse_log_start_and_end (e : LogEntry) : Option (Int × Int) :=
  match e.start_time with
  | .parsed t => some (t, t + effectiveLength e.length)
  | _ => none

/-- Pass-1b match condition on one history entry
(`conflict.py` lines 60-71): different session id, equal school after
strip/lower on both sides, parsable start, strict overlap. -/
def pass1bMatchB (sid : String) (school : Option String) (cs ce : Int)
    (e : LogEntry) : Bool :=
  !(e.session_id == some sid) && (normOpt e.school == normOpt school) &&
  (match parse_log_start_and_end e with
   | some (hs, he) => decide (cs < he) && decide (hs < ce)
   | none => false)

/-- Detail string of a ghost-ticket conflict (`conflict.py` lines 75-78). -/
def ghostDetail (e : LogEntry) : String :=
  "Rebooked/ghost ticket conflict with submitted ticket " ++
  e.ticket_id.getD "Unknown" ++ " for '" ++ e.title.getD "Unknown Session" ++ "'."

/-- Annotation written when pass 1b finds its first match
(`conflict.py` lines 72-80). -/
def flagAgainstHistory (c : Session) (e : LogEntry) : Session :=
  match parse_log_start_and_end e with
  | some (hs, he) =>
      { c with is_conflict := true, conflict_type := some "ghost_ticket",
               conflict_details := ghostDetail e,
               conflict_start_iso := some hs, conflict_end_iso := some he }
  | none => c

/-- Pass 1b: first-match scan of the history, only reached when the
candidate is still unflagged (`conflict.py` lines 55-81). -/
def pass1b (hist : List LogEntry) (c : Session) : Session :=
  if c.is_conflict then c
  else
    match c.start_time with
    | none => c
    | some cs =>
        let ce := sessionEnd cs c.length
        match hist.find? (pass1bMatchB c.s_id c.school cs ce) with
        | some e => flagAgainstHistory c e
        | none => c

/-- The whole per-candidate first loop: reset, pass 1, pass 1b. -/
def stage1 (ids : List String) (existing : List Session) (hist : List LogEntry)
    (c : Session) : Session :=
  pass1b hist (pass1 ids existing (resetConflictFields c))

/-- `(status or "").strip().lower() == "booked" and not gn_ticket_requested`,
the eligibility test of pass 2 for both sides. -/
def bookedEligible (c : Session) : Bool :=
  (normOpt c.status == "booked") && !c.gn_ticket_requested

/-- Pass-2 inner-loop partner test (`conflict.py` lines 100-114): later
session with a start time, unflagged, booked, not yet requested, same
school (exact equality), strict overlap. -/
def pass2PartnerB (school : Option String) (cs ce : Int) (o : Session) : Bool :=
  match o.start_time with
  | none => false
  | some os =>
      !o.is_conflict && bookedEligible o && (school == o.school) &&
      decide (cs < sessionEnd os o.length) && decide (os < ce)

/-- Detail string of an intra-batch booked conflict
(`conflict.py` lines 115-117, 128-130). -/
def bookedDetail (title : String) : String :=
  "Conflicts with another booked session '" ++ title ++ "'."

/-- Flag one side of an intra-batch booked conflict against the other
side's interval and title (`conflict.py` lines 119-132). -/
def flagBooked (c : Session) (os oe : Int) (otitle : String) : Session :=
  { c with is_conflict := true, conflict_type := some "time",
           conflict_details := bookedDetail otitle,
           conflict_start_iso := some os, conflict_end_iso := some oe }

/-- Pass-2 inner loop: scan the suffix for the first partner of the outer
candidate `c`, flag both sides (the partner in place inside the returned
suffix), keep every other element untouched (`conflict.py` lines 100-133).
The `if o.is_conflict` test mirrors the source's `if not other.is_conflict`
guard before flagging the partner (dead there, since flagged partners were
already skipped). -/
def pass2Scan (c : Session) (cs ce : Int) :
    List Session → Option (Session × List Session)
  | [] => none
  | o :: rest =>
      if pass2PartnerB c.school cs ce o then
        match o.start_time with
        | some os =>
            let oe := sessionEnd os o.length
            some (flagBooked c os oe o.title,
                  (if o.is_conflict then o else flagBooked o cs ce c.title) :: rest)
        | none => none
      else
        match pass2Scan c cs ce rest with
        | some (c', rest') => some (c', o :: rest')
        | none => none

/-- The inner scan replaces at most one element, so it preserves length. -/
theorem pass2Scan_length {c : Session} {cs ce : Int} :
    ∀ {l : List Session} {c' : Session} {l' : List Session},
    pass2Scan c cs ce l = some (c', l') → l'.length = l.length
  | [], _, _, h => by simp [pass2Scan] at h
  | o :: rest, c', l', h => by
      rw [pass2Scan] at h
      split at h
      · split at h
        · simp only [Option.some.injEq, Prod.mk.injEq] at h
          rw [← h.2]
          simp
        · exact absurd h (by simp)
      · split at h
        · next c'' rest'' heq =>
            simp only [Option.some.injEq, Prod.mk.injEq] at h
            rw [← h.2]
            simpa using pass2Scan_length heq
        · exact absurd h (by simp)

/-- Pass-2 outer loop over the sessions that have a start time, in
original order (`conflict.py` lines 86-133).  Sessions without a start
time are carried through untouched (they are not in `sessions_with_time`,
and the partner test of `pass2Scan` skips them); filtering them out and
back in would not change any comparison because `filter` preserves order.
The recursion is driven by a fuel argument because `pass2Scan` rewrites
the suffix; `pass2Scan_length` shows the suffix keeps its length, so
`fuel = length` never runs out. -/
def pass2GoF : Nat → List Session → List Session
  | 0, l => l
  | _ + 1, [] => []
  | fuel + 1, c :: rest =>
      match c.start_time with
      | none => c :: pass2GoF fuel rest
      | some cs =>
          if c.is_conflict then c :: pass2GoF fuel rest
          else if !(bookedEligible c) then c :: pass2GoF fuel rest
          else
            match pass2Scan c cs (sessionEnd cs c.length) rest with
            | some (c', rest') => c' :: pass2GoF fuel rest'
            | none => c :: pass2GoF fuel rest

/-- Pass 2 on a candidate list. -/
def pass2Go (l : List Session) : List Session :=
  pass2GoF l.length l

/-- Pass-3 inner-loop partner test (`conflict.py` lines 148-159): later
session with a start time, unflagged, same teacher after strip/lower,
strict overlap. -/
def pass3PartnerB (tkey : String) (cs ce : Int) (o : Session) : Bool :=
  match o.start_time with
  | none => false
  | some os =>
      !o.is_conflict && (normOpt o.teacher == tkey) &&
      decide (cs < sessionEnd os o.length) && decide (os < ce)

/-- Detail string of a same-teacher conflict
(`conflict.py` lines 160-162, 173-175). -/
def inProgressDetail (title : String) : String :=
  "Conflicts with another in-progress session '" ++ title ++ "'."

/-- Flag one side of a same-teacher conflict (`conflict.py` lines 164-177). -/
def flagTeacher (c : Session) (os oe : Int) (otitle : String) : Session :=
  { c with is_conflict := true, conflict_type := some "time",
           conflict_details := inProgressDetail otitle,
           conflict_start_iso := some os, conflict_end_iso := some oe }

/-- Pass-3 inner loop, same shape as `pass2Scan`
(`conflict.py` lines 148-178). -/
def pass3Scan (c : Session) (tkey : String) (cs ce : Int) :
    List Session → Option (Session × List Session)
  | [] => none
  | o :: rest =>
      if pass3PartnerB tkey cs ce o then
        match o.start_time with
        | some os =>
            let oe := sessionEnd os o.length
            some (flagTeacher c os oe o.title,
                  (if o.is_conflict then o else flagTeacher o cs ce c.title) :: rest)
        | none => none
      else
        match pass3Scan c tkey cs ce rest with
        | some (c', rest') => some (c', o :: rest')
        | none => none

/-- The pass-3 inner scan also preserves length. -/
theorem pass3Scan_length {c : Session} {tk : String} {cs ce : Int} :
    ∀ {l : List Session} {c' : Session} {l' : List Session},
    pass3Scan c tk cs ce l = some (c', l') → l'.length = l.length
  | [], _, _, h => by simp [pass3Scan] at h
  | o :: rest, c', l', h => by
      rw [pass3Scan] at h
      split at h
      · split at h
        · simp only [Option.some.injEq, Prod.mk.injEq] at h
          rw [← h.2]
          simp
        · exact absurd h (by simp)
      · split at h
        · next c'' rest'' heq =>
            simp only [Option.some.injEq, Prod.mk.injEq] at h
            rw [← h.2]
            simpa using pass3Scan_length heq
        · exact absurd h (by simp)

/-- Pass-3 outer loop (`conflict.py` lines 135-178): unflagged sessions
with a start time and a non-empty normalized teacher; fueled like
`pass2GoF`. -/
def pass3GoF : Nat → List Session → List Session
  | 0, l => l
  | _ + 1, [] => []
  | fuel + 1, c :: rest =>
      match c.start_time with
      | none => c :: pass3GoF fuel rest
      | some cs =>
          if c.is_conflict then c :: pass3GoF fuel rest
          else if normOpt c.teacher == "" then c :: pass3GoF fuel rest
          else
            match pass3Scan c (normOpt c.teacher) cs (sessionEnd cs c.length) rest with
            | some (c', rest') => c' :: pass3GoF fuel rest'
            | none => c :: pass3GoF fuel rest

/-- Pass 3 on a candidate list. -/
def pass3Go (l : List Session) : List Session :=
  pass3GoF l.length l

/-- `check_for_time_conflicts` of `src/conflict.py`: candidate-id set from
the batch, reset + pass 1 + pass 1b per candidate, then the two intra-batch
passes.  The `historical_ticket_entries or []` default is the `hist`
argument itself. -/
def check_for_time_conflicts (candidate_sessions existing_sessions : List Session)
    (historical_ticket_entries : List LogEntry) : List Session :=
  let candidate_ids := candidate_sessions.map (·.s_id)
  pass3Go (pass2Go (candidate_sessions.map
    (stage1 candidate_ids existing_sessions historical_ticket_entries)))

/-!
Independent transcription of the `check_for_time_conflicts` defined inside
`src/main.py` (lines 226-415).  `main.py` imports `parse_log_start_and_end`
from `ticket_submission_log`, so that function (and the shared `Session` /
log-entry shapes and string idioms) are genuinely the same objects; the
detector logic itself is transcribed afresh below.
-/

namespace MainPy

/-- Reset phase of the `main.py` copy (lines 240-246). -/
def resetConflictFields (c : Session) : Session :=
  { c with is_conflict := false, conflict_details := "", conflict_type := none,
           conflict_start_iso := none, conflict_end_iso := none }

/-- Booked-and-not-yet-requested test of the `main.py` copy
(lines 323-327, 336-340). -/
def bookedEligible (c : Session) : Bool :=
  (normOpt c.status == "booked") && !c.gn_ticket_requested

/-- Ghost-ticket detail string of the `main.py` copy (lines 304-307). -/
def ghostDetail (e : LogEntry) : String :=
  "Rebooked/ghost ticket conflict with submitted ticket " ++
  e.ticket_id.getD "Unknown" ++ " for '" ++ e.title.getD "Unknown Session" ++ "'."

/-- Intra-batch booked detail string of the `main.py` copy
(lines 349-351, 362-364). -/
def bookedDetail (title : String) : String :=
  "Conflicts with another booked session '" ++ title ++ "'."

/-- Booked-conflict annotation of the `main.py` copy (lines 353-366). -/
def flagBooked (c : Session) (os oe : Int) (otitle : String) : Session :=
  { c with is_conflict := true, conflict_type := some "time",
           conflict_details := bookedDetail otitle,
           conflict_start_iso := some os, conflict_end_iso := some oe }

/-- Same-teacher detail string of the `main.py` copy
(lines 395-397, 408-410). -/
def inProgressDetail (title : String) : String :=
  "Conflicts with another in-progress session '" ++ title ++ "'."

/-- Same-teacher-conflict annotation of the `main.py` copy
(lines 399-412). -/
def flagTeacher (c : Session) (os oe : Int) (otitle : String) : Session :=
  { c with is_conflict := true, conflict_type := some "time",
           conflict_details := inProgressDetail otitle,
           conflict_start_iso := some os, conflict_end_iso := some oe }

/-- Pass-1 match condition of the `main.py` copy (lines 253-273). -/
def pass1MatchB (ids : List String) (school : Option String) (cs ce : Int)
    (e : Session) : Bool :=
  match e.start_time with
  | none => false
  | some es =>
      !(ids.contains e.s_id) && (school == e.school) &&
      (normOpt e.status == "booked") && e.gn_ticket_requested &&
      decide (cs < sessionEnd es e.length) && decide (es < ce)

/-- Pass-1 annotation of the `main.py` copy (lines 274-280). -/
def flagAgainstExisting (c e : Session) : Session :=
  match e.start_time with
  | some es =>
      { c with is_conflict := true, conflict_type := some "time",
               conflict_details :=
                 "Conflicts with previously booked session '" ++ e.title ++ "'.",
               conflict_start_iso := some es,
               conflict_end_iso := some (sessionEnd es e.length) }
  | none => c

/-- Pass 1 of the `main.py` copy (lines 253-281). -/
def pass1 (ids : List String) (existing : List Session) (c : Session) : Session :=
  match c.start_time with
  | none => c
  | some cs =>
      let ce := sessionEnd cs c.length
      match existing.find? (pass1MatchB ids c.school cs ce) with
      | some e => flagAgainstExisting c e
      | none => c

/-- Pass-1b match condition of the `main.py` copy (lines 288-300). -/
def pass1bMatchB (sid : String) (school : Option String) (cs ce : Int)
    (e : LogEntry) : Bool :=
  !(e.session_id == some sid) && (normOpt e.school == normOpt school) &&
  (match parse_log_start_and_end e with
   | some (hs, he) => decide (cs < he) && decide (hs < ce)
   | none => false)

/-- Pass-1b annotation of the `main.py` copy (lines 301-309). -/
def flagAgainstHistory (c : Session) (e : LogEntry) : Session :=
  match parse_log_start_and_end e with
  | some (hs, he) =>
      { c with is_conflict := true, conflict_type := some "ghost_ticket",
               conflict_details := ghostDetail e,
               conflict_start_iso := some hs, conflict_end_iso := some he }
  | none => c

/-- Pass 1b of the `main.py` copy (lines 283-310). -/
def pass1b (hist : List LogEntry) (c : Session) : Session :=
  if c.is_conflict then c
  else
    match c.start_time with
    | none => c
    | some cs =>
        let ce := sessionEnd cs c.length
        match hist.find? (pass1bMatchB c.s_id c.school cs ce) with
        | some e => flagAgainstHistory c e
        | none => c

/-- Reset + pass 1 + pass 1b of the `main.py` copy (lines 240-313). -/
def stage1 (ids : List String) (existing : List Session) (hist : List LogEntry)
    (c : Session) : Session :=
  pass1b hist (pass1 ids existing (resetConflictFields c))

/-- Pass-2 partner test of the `main.py` copy (lines 332-348). -/
def pass2PartnerB (school : Option String) (cs ce : Int) (o : Session) : Bool :=
  match o.start_time with
  | none => false
  | some os =>
      !o.is_conflict && bookedEligible o && (school == o.school) &&
      decide (cs < sessionEnd os o.length) && decide (os < ce)

/-- Pass-2 inner loop of the `main.py` copy (lines 332-367). -/
def pass2Scan (c : Session) (cs ce : Int) :
    List Session → Option (Session × List Session)
  | [] => none
  | o :: rest =>
      if pass2PartnerB c.school cs ce o then
        match o.start_time with
        | some os =>
            let oe := sessionEnd os o.length
            some (flagBooked c os oe o.title,
                  (if o.is_conflict then o else flagBooked o cs ce c.title) :: rest)
        | none => none
      else
        match pass2Scan c cs ce rest with
        | some (c', rest') => some (c', o :: rest')
        | none => none

/-- Pass-2 outer loop of the `main.py` copy (lines 315-367), fueled. -/
def pass2GoF : Nat → List Session → List Session
  | 0, l => l
  | _ + 1, [] => []
  | fuel + 1, c :: rest =>
      match c.start_time with
      | none => c :: pass2GoF fuel rest
      | some cs =>
          if c.is_conflict then c :: pass2GoF fuel rest
          else if !(bookedEligible c) then c :: pass2GoF fuel rest
          else
            match pass2Scan c cs (sessionEnd cs c.length) rest with
            | some (c', rest') => c' :: pass2GoF fuel rest'
            | none => c :: pass2GoF fuel rest

/-- Pass 2 of the `main.py` copy. -/
def pass2Go (l : List Session) : List Session :=
  pass2GoF l.length l

/-- Pass-3 partner test of the `main.py` copy (lines 383-394). -/
def pass3PartnerB (tkey : String) (cs ce : Int) (o : Session) : Bool :=
  match o.start_time with
  | none => false
  | some os =>
      !o.is_conflict && (normOpt o.teacher == tkey) &&
      decide (cs < sessionEnd os o.length) && decide (os < ce)

/-- Pass-3 inner loop of the `main.py` copy (lines 383-413). -/
def pass3Scan (c : Session) (tkey : String) (cs ce : Int) :
    List Session → Option (Session × List Session)
  | [] => none
  | o :: rest =>
      if pass3PartnerB tkey cs ce o then
        match o.start_time with
        | some os =>
            let oe := sessionEnd os o.length
            some (flagTeacher c os oe o.title,
                  (if o.is_conflict then o else flagTeacher o cs ce c.title) :: rest)
        | none => none
      else
        match pass3Scan c tkey cs ce rest with
        | some (c', rest') => some (c', o :: rest')
        | none => none

/-- Pass-3 outer loop of the `main.py` copy (lines 369-413), fueled. -/
def pass3GoF : Nat → List Session → List Session
  | 0, l => l
  | _ + 1, [] => []
  | fuel + 1, c :: rest =>
      match c.start_time with
      | none => c :: pass3GoF fuel rest
      | some cs =>
          if c.is_conflict then c :: pass3GoF fuel rest
          else if normOpt c.teacher == "" then c :: pass3GoF fuel rest
          else
            match pass3Scan c (normOpt c.teacher) cs (sessionEnd cs c.length) rest with
            | some (c', rest') => c' :: pass3GoF fuel rest'
            | none => c :: pass3GoF fuel rest

/-- Pass 3 of the `main.py` copy. -/
def pass3Go (l : List Session) : List Session :=
  pass3GoF l.length l

/-- The `check_for_time_conflicts` defined inside `src/main.py`. -/
def check_for_time_conflicts (candidate_sessions existing_sessions : List Session)
    (historical_ticket_entries : List LogEntry) : List Session :=
  let candidate_ids := candidate_sessions.map (·.s_id)
  pass3Go (pass2Go (candidate_sessions.map
    (stage1 candidate_ids existing_sessions historical_ticket_entries)))

end MainPy

/-!
Model of the Submission Log Store (`src/ticket_submission_log.py`).
`submitted_at` stamps are seconds since the epoch; `timedelta(days=d)` is
`d * 86400` seconds.  The SQLAlchemy table is a list of rows; the `users`
table is a list of `(id, email)` records.  `get_entries` orders by
`submitted_at` descending, which the spec leaves uncontractual
("ordering is not contractually guaranteed"); the model returns the rows
in table order.
-/

/-- A row of the `users` table (the fields the log store reads). -/
structure DbUser where
  id : Nat
  email : String
  deriving Repr, DecidableEq

/-- A row of the `ticket_submissions` table. -/
structure TicketSubmissionRow where
  user_id : Nat
  submitted_at : Int
  session_id : Option String
  title : String
  school : String
  teacher : String
  ticket_id : String
  start_time : Option Int
  length : Int
  status : String
  deriving Repr, DecidableEq

/-- The persistent database state shared by all log operations. -/
structure LogDB where
  users : List DbUser
  rows : List TicketSubmissionRow
  deriving Repr, DecidableEq

/-- `TicketSubmissionLog.__init__(self, retention_days=365)`: the default
field value embeds the default argument. -/
structure TicketSubmissionLog where
  retention_days : Int := 365
  deriving Repr, DecidableEq

/-- `TicketSubmissionLog.prune` (`ticket_submission_log.py` lines 20-24):
delete every row with `submitted_at < now - timedelta(days=retention_days)`. -/
def TicketSubmissionLog.prune (log : TicketSubmissionLog) (now : Int)
    (db : LogDB) : LogDB :=
  let cutoff := now - log.retention_days * 86400
  { db with rows := db.rows.filter (fun r => !(decide (r.submitted_at < cutoff))) }

/-- `TicketSubmissionLog.get_entries` (lines 26-53): prune on read, then
select, optionally restricted to one user (email compared after
strip/lower; an unknown user yields `[]`) and to a past window
(`submitted_at >= now - days`).  Returns the selected rows together with
the pruned database state. -/
def TicketSubmissionLog.get_entries (log : TicketSubmissionLog) (now : Int)
    (db : LogDB) (user_email : Option String) (window_past_days : Option Int) :
    List TicketSubmissionRow × LogDB :=
  let db' := log.prune now db
  let rows :=
    match user_email with
    | some ue =>
        match db'.users.find? (fun u => u.email == pyLower (pyStrip ue)) with
        | none => []
        | some u => db'.rows.filter (fun r => r.user_id == u.id)
    | none => db'.rows
  let rows :=
    match window_past_days with
    | some w => rows.filter (fun r => decide (now - w * 86400 ≤ r.submitted_at))
    | none => rows
  (rows, db')

/-- One element of the `successful_sessions` argument of
`add_successful_submissions` (the dictionary keys the method reads; a
missing key is `none`). -/
structure NewSubmission where
  session_id : Option String
  title : Option String
  school : Option String
  teacher : Option String
  ticket_id : Option String
  start_time : RawStart
  length : Option Int
  deriving Repr, DecidableEq

/-- The row built for one successful submission
(`ticket_submission_log.py` lines 63-83): missing keys fall back to their
defaults, a missing or unparsable start time is stored as null, and the
shared `created_at` stamp becomes `submitted_at`. -/
def mkSubmissionRow (now : Int) (uid : Nat) (s : NewSubmission) :
    TicketSubmissionRow where
  user_id := uid
  submitted_at := now
  session_id := s.session_id
  title := s.title.getD "Unknown Session"
  school := s.school.getD "Unknown School"
  teacher := s.teacher.getD "Unknown Teacher"
  ticket_id := s.ticket_id.getD "Unknown"
  start_time := match s.start_time with | .parsed t => some t | _ => none
  length := s.length.getD 0
  status := "success"

/-- `TicketSubmissionLog.add_successful_submissions` (lines 55-85): no-op
on an empty batch or an unknown user, otherwise one row appended per
input, all stamped with the one `created_at = utcnow()` taken at the top
of the call. -/
def TicketSubmissionLog.add_successful_submissions (_log : TicketSubmissionLog)
    (now : Int) (db : LogDB) (user_email : String)
    (successful_sessions : List NewSubmission) : LogDB :=
  if successful_sessions.isEmpty then db
  else
    match db.users.find? (fun u => u.email == pyLower (pyStrip user_email)) with
    | none => db
    | some u =>
        { db with rows := db.rows ++ successful_sessions.map (mkSubmissionRow now u.id) }

/-!  Theorems about the Submission Log Store.  -/

/-- C6: a prune keeps exactly the rows whose submission stamp is not
strictly older than `now - retention_days` (in particular the row at
`cutoff - 1s` is removed and the row at `cutoff + 1s` is kept), and any
number of further prunes at the same clock changes nothing. -/
theorem prune_retention_exact (log : TicketSubmissionLog) (now : Int) (db : LogDB) :
    (∀ r, r ∈ (log.prune now db).rows ↔
        r ∈ db.rows ∧ ¬(r.submitted_at < now - log.retention_days * 86400))
    ∧ (∀ n : Nat, (log.prune now)^[n + 1] db = log.prune now db)
    ∧ (∀ r ∈ db.rows, r.submitted_at = now - log.retention_days * 86400 - 1 →
        r ∉ (log.prune now db).rows)
    ∧ (∀ r ∈ db.rows, r.submitted_at = now - log.retention_days * 86400 + 1 →
        r ∈ (log.prune now db).rows) := by
  have hmem : ∀ r, r ∈ (log.prune now db).rows ↔
      r ∈ db.rows ∧ ¬(r.submitted_at < now - log.retention_days * 86400) := by
    intro r
    simp [TicketSubmissionLog.prune, List.mem_filter]
  have hidem : log.prune now (log.prune now db) = log.prune now db := by
    simp [TicketSubmissionLog.prune, List.filter_filter]
  refine ⟨hmem, ?_, ?_, ?_⟩
  · intro n
    induction n with
    | zero => simp
    | succ m ih => rw [Function.iterate_succ_apply', ih, hidem]
  · intro r hr hts
    rw [hmem]
    intro hcontra
    omega
  · intro r hr hts
    rw [hmem]
    constructor
    · exact hr
    · omega

/-- Closed instance of `prune_retention_exact` at a concrete store. -/
theorem prune_retention_exact_witness :
    (⟨1, 100000000 - 30 * 86400 - 1, none, "t", "s", "te", "id", none, 0, "success"⟩ :
        TicketSubmissionRow) ∉
      (TicketSubmissionLog.prune ⟨30⟩ 100000000
        ⟨[], [⟨1, 100000000 - 30 * 86400 - 1, none, "t", "s", "te", "id", none, 0, "success"⟩,
              ⟨2, 100000000 - 30 * 86400 + 1, none, "t", "s", "te", "id", none, 0, "success"⟩]⟩).rows
    ∧ (⟨2, 100000000 - 30 * 86400 + 1, none, "t", "s", "te", "id", none, 0, "success"⟩ :
        TicketSubmissionRow) ∈
      (TicketSubmissionLog.prune ⟨30⟩ 100000000
        ⟨[], [⟨1, 100000000 - 30 * 86400 - 1, none, "t", "s", "te", "id", none, 0, "success"⟩,
              ⟨2, 100000000 - 30 * 86400 + 1, none, "t", "s", "te", "id", none, 0, "success"⟩]⟩).rows := by
  constructor
  · exact (prune_retention_exact ⟨30⟩ 100000000 _).2.2.1 _ (by simp) (by norm_num)
  · exact (prune_retention_exact ⟨30⟩ 100000000 _).2.2.2 _ (by simp) (by norm_num)

/-- C8 counterexample: the default-constructed store has a 365-day
retention window, not 30 days; a row 31 days old survives a prune and is
still returned by `get_entries`. -/
theorem default_retention_counterexample :
    ({} : TicketSubmissionLog).retention_days = 365
    ∧ (({} : TicketSubmissionLog).prune (31 * 86400)
        ⟨[], [⟨1, 0, none, "t", "s", "te", "id", none, 0, "success"⟩]⟩).rows
      = [⟨1, 0, none, "t", "s", "te", "id", none, 0, "success"⟩]
    ∧ (⟨1, 0, none, "t", "s", "te", "id", none, 0, "success"⟩ : TicketSubmissionRow) ∈
      (({} : TicketSubmissionLog).get_entries (31 * 86400)
        ⟨[], [⟨1, 0, none, "t", "s", "te", "id", none, 0, "success"⟩]⟩ none none).1 := by
  refine ⟨rfl, by decide, by decide⟩

/-- C8 amended: the default retention window is 365 days; rows strictly
older than it are removed by every prune and never returned by any
`get_entries` read. -/
theorem default_retention_365 (now : Int) (db : LogDB) (r : TicketSubmissionRow)
    (hold : r.submitted_at < now - 365 * 86400) :
    ({} : TicketSubmissionLog).retention_days = 365
    ∧ r ∉ (({} : TicketSubmissionLog).prune now db).rows
    ∧ ∀ ue w, r ∉ (({} : TicketSubmissionLog).get_entries now db ue w).1 := by
  have hnp : r ∉ (({} : TicketSubmissionLog).prune now db).rows := by
    rw [(prune_retention_exact {} now db).1 r]
    intro h
    exact absurd hold h.2
  refine ⟨rfl, hnp, ?_⟩
  intro ue w hmem
  apply hnp
  -- every read path only filters the pruned rows further
  unfold TicketSubmissionLog.get_entries at hmem
  simp only [] at hmem
  split at hmem
  · replace hmem := (List.mem_filter.mp hmem).1
    split at hmem
    · split at hmem
      · exact absurd hmem (by simp)
      · exact (List.mem_filter.mp hmem).1
    · exact hmem
  · split at hmem
    · split at hmem
      · exact absurd hmem (by simp)
      · exact (List.mem_filter.mp hmem).1
    · exact hmem

/-- Closed instance of `default_retention_365`. -/
theorem default_retention_365_witness :
    (⟨1, 0, none, "t", "s", "te", "id", none, 0, "success"⟩ : TicketSubmissionRow) ∉
      (({} : TicketSubmissionLog).prune (366 * 86400)
        ⟨[], [⟨1, 0, none, "t", "s", "te", "id", none, 0, "success"⟩]⟩).rows :=
  (default_retention_365 (366 * 86400)
    ⟨[], [⟨1, 0, none, "t", "s", "te", "id", none, 0, "success"⟩]⟩
    ⟨1, 0, none, "t", "s", "te", "id", none, 0, "success"⟩ (by norm_num)).2.1

/-- C9 counterexample: a call with one completed submission but a
submitting identity matching no user appends nothing (the claim's
"exactly one log entry per input" fails). -/
theorem add_submissions_unknown_user_counterexample :
    (TicketSubmissionLog.add_successful_submissions {} 0 ⟨[], []⟩ "user@example.com"
      [⟨none, none, none, none, none, .missing, none⟩]).rows = [] := by
  decide

/-- C9 amended: when the (stripped, lowercased) submitting identity
matches a user, a non-empty call appends exactly one row per input, all
stamped with the single current-UTC-time taken at the top of the call, and
a missing or unparsable recorded start time is stored as a null start time
instead of failing the call. -/
theorem add_successful_submissions_spec (log : TicketSubmissionLog) (now : Int)
    (db : LogDB) (ue : String) (subs : List NewSubmission) (u : DbUser)
    (hfind : db.users.find? (fun x => x.email == pyLower (pyStrip ue)) = some u)
    (hne : subs ≠ []) :
    (log.add_successful_submissions now db ue subs).rows
        = db.rows ++ subs.map (mkSubmissionRow now u.id)
    ∧ (log.add_successful_submissions now db ue subs).rows.length
        = db.rows.length + subs.length
    ∧ (∀ s ∈ subs, (mkSubmissionRow now u.id s).submitted_at = now)
    ∧ (∀ s ∈ subs, s.start_time = .missing ∨ s.start_time = .unparsable →
        (mkSubmissionRow now u.id s).start_time = none) := by
  have hrows : (log.add_successful_submissions now db ue subs).rows
      = db.rows ++ subs.map (mkSubmissionRow now u.id) := by
    unfold TicketSubmissionLog.add_successful_submissions
    rw [if_neg (by simpa using hne), hfind]
  refine ⟨hrows, by simp [hrows], fun s _ => rfl, ?_⟩
  intro s _ hs
  rcases hs with h | h <;> simp [mkSubmissionRow, h]

/-- Closed instance of `add_successful_submissions_spec`: one parsable and
one unparsable submission for a known user. -/
theorem add_successful_submissions_spec_witness :
    (TicketSubmissionLog.add_successful_submissions {} 50 ⟨[⟨7, "a@b.c"⟩], []⟩ " A@b.C "
        [⟨some "s1", some "T", some "S", some "Te", some "R1", .parsed 900, some 60⟩,
         ⟨some "s2", none, none, none, none, .unparsable, none⟩]).rows.length = 0 + 2
    ∧ (mkSubmissionRow 50 7 ⟨some "s2", none, none, none, none, .unparsable, none⟩).start_time
        = none := by
  have h := add_successful_submissions_spec {} 50 ⟨[⟨7, "a@b.c"⟩], []⟩ " A@b.C "
    [⟨some "s1", some "T", some "S", some "Te", some "R1", .parsed 900, some 60⟩,
     ⟨some "s2", none, none, none, none, .unparsable, none⟩] ⟨7, "a@b.c"⟩
    (by decide) (by decide)
  refine ⟨?_, ?_⟩
  · have := h.2.1
    simpa using this
  · exact h.2.2.2 _ (by simp) (Or.inr rfl)

/-!  Theorems about passes 1 and 1b of the detector.  -/

/-- C1: pass 1 flags a candidate that has a start time (and comes in
unflagged, as the reset phase guarantees) with kind `time` iff some
existing session passes the match condition — id not in the batch, same
school by exact equality of the attributes, status "booked" after
strip/lower, ticket already requested, has a start time, strict half-open
overlap — and the first match in iteration order supplies the annotation:
its title in the detail and its interval as the conflict window. -/
theorem pass1_commitment_spec (ids : List String) (existing : List Session)
    (c : Session) (cs : Int)
    (hstart : c.start_time = some cs) (hflag : c.is_conflict = false) :
    (((pass1 ids existing c).is_conflict = true ∧
      (pass1 ids existing c).conflict_type = some "time") ↔
      ∃ e ∈ existing, pass1MatchB ids c.school cs (sessionEnd cs c.length) e = true)
    ∧ (∀ e, existing.find? (pass1MatchB ids c.school cs (sessionEnd cs c.length)) = some e →
        ∃ es, e.start_time = some es ∧
          pass1 ids existing c = flagAgainstExisting c e ∧
          (pass1 ids existing c).conflict_details
            = "Conflicts with previously booked session '" ++ e.title ++ "'." ∧
          (pass1 ids existing c).conflict_start_iso = some es ∧
          (pass1 ids existing c).conflict_end_iso = some (sessionEnd es e.length)) := by
  rcases hfind : existing.find? (pass1MatchB ids c.school cs (sessionEnd cs c.length))
      with _ | e
  · have hp1 : pass1 ids existing c = c := by
      simp only [pass1, hstart, hfind]
    constructor
    · constructor
      · rintro ⟨h1, -⟩
        rw [hp1] at h1
        exact absurd h1 (by rw [hflag]; simp)
      · rintro ⟨e, he, hpe⟩
        exact absurd hpe (by simpa using List.find?_eq_none.mp hfind e he)
    · intro e he
      exact absurd he (by simp)
  · have hpe := List.find?_some hfind
    have hmem := List.mem_of_find?_eq_some hfind
    have hp1 : pass1 ids existing c = flagAgainstExisting c e := by
      simp only [pass1, hstart, hfind]
    rcases hes : e.start_time with _ | es
    · rw [pass1MatchB, hes] at hpe
      exact absurd hpe (by simp)
    · have hflagged : flagAgainstExisting c e =
          { c with is_conflict := true, conflict_type := some "time",
                   conflict_details :=
                     "Conflicts with previously booked session '" ++ e.title ++ "'.",
                   conflict_start_iso := some es,
                   conflict_end_iso := some (sessionEnd es e.length) } := by
        rw [flagAgainstExisting, hes]
      constructor
      · constructor
        · intro _
          exact ⟨e, hmem, hpe⟩
        · intro _
          rw [hp1, hflagged]
          exact ⟨rfl, rfl⟩
      · intro e' he'
        obtain rfl := Option.some.inj he'
        refine ⟨es, hes, hp1, ?_, ?_, ?_⟩ <;> simp [hp1, hflagged]

/-- Closed instance of `pass1_commitment_spec`: a 15:00–16:00 candidate
against a booked, ticket-requested 15:30–16:30 existing session at the
same school. -/
theorem pass1_commitment_spec_witness :
    (((pass1 ["c1"]
        [⟨"e1", "Prior", some "A", some "T", some "Booked", some 930, some 60,
          true, false, "", none, none, none⟩]
        ⟨"c1", "Cand", some "A", some "T", some "Booked", some 900, some 60,
          false, false, "", none, none, none⟩).is_conflict = true ∧
      (pass1 ["c1"]
        [⟨"e1", "Prior", some "A", some "T", some "Booked", some 930, some 60,
          true, false, "", none, none, none⟩]
        ⟨"c1", "Cand", some "A", some "T", some "Booked", some 900, some 60,
          false, false, "", none, none, none⟩).conflict_type = some "time") ↔
      ∃ e ∈ [(⟨"e1", "Prior", some "A", some "T", some "Booked", some 930, some 60,
          true, false, "", none, none, none⟩ : Session)],
        pass1MatchB ["c1"] (some "A") 900 (sessionEnd 900 (some 60)) e = true) :=
  (pass1_commitment_spec ["c1"] _ _ 900 rfl rfl).1

/-- C2: pass 1b on a candidate with a start time that pass 1 left
unflagged: any matching history entry (different session id, equal school
after strip/lower, parsable start, strict overlap) flags it `ghost_ticket`;
unparsable entries can never match; and the first match supplies the
detail (which contains the historical ticket id and title) and the
conflict window. -/
theorem pass1b_ghost_spec (hist : List LogEntry) (c : Session) (cs : Int)
    (hstart : c.start_time = some cs) (hflag : c.is_conflict = false) :
    ((∃ e ∈ hist, pass1bMatchB c.s_id c.school cs (sessionEnd cs c.length) e = true) →
      (pass1b hist c).is_conflict = true ∧
      (pass1b hist c).conflict_type = some "ghost_ticket")
    ∧ (∀ e ∈ hist, parse_log_start_and_end e = none →
        pass1bMatchB c.s_id c.school cs (sessionEnd cs c.length) e = false)
    ∧ (∀ e, hist.find? (pass1bMatchB c.s_id c.school cs (sessionEnd cs c.length)) = some e →
        ∃ hs he, parse_log_start_and_end e = some (hs, he) ∧
          pass1b hist c = flagAgainstHistory c e ∧
          (pass1b hist c).conflict_details = ghostDetail e ∧
          (∃ pre post, (pass1b hist c).conflict_details.data
              = pre ++ (e.ticket_id.getD "Unknown").data ++ post) ∧
          (∃ pre post, (pass1b hist c).conflict_details.data
              = pre ++ (e.title.getD "Unknown Session").data ++ post) ∧
          (pass1b hist c).conflict_start_iso = some hs ∧
          (pass1b hist c).conflict_end_iso = some he) := by
  have hunp : ∀ e ∈ hist, parse_log_start_and_end e = none →
      pass1bMatchB c.s_id c.school cs (sessionEnd cs c.length) e = false := by
    intro e _ hp
    rw [pass1bMatchB, hp]
    simp
  refine ⟨?_, hunp, ?_⟩
  · rintro ⟨e, he, hpe⟩
    have hsome : (hist.find? (pass1bMatchB c.s_id c.school cs (sessionEnd cs c.length))).isSome := by
      rw [List.find?_isSome]
      exact ⟨e, he, hpe⟩
    rcases hfind : hist.find? (pass1bMatchB c.s_id c.school cs (sessionEnd cs c.length))
        with _ | e₀
    · rw [hfind] at hsome
      exact absurd hsome (by simp)
    · have hpe₀ := List.find?_some hfind
      rcases hp : parse_log_start_and_end e₀ with _ | ⟨hs, he'⟩
      · rw [pass1bMatchB, hp] at hpe₀
        exact absurd hpe₀ (by simp)
      · have hred : pass1b hist c = flagAgainstHistory c e₀ := by
          simp only [pass1b, hflag, hstart, hfind, if_false, Bool.false_eq_true]
        rw [hred]
        constructor <;> simp [flagAgainstHistory, hp]
  · intro e hfind
    have hpe := List.find?_some hfind
    rcases hp : parse_log_start_and_end e with _ | ⟨hs, he'⟩
    · rw [pass1bMatchB, hp] at hpe
      exact absurd hpe (by simp)
    · have hpb : pass1b hist c = flagAgainstHistory c e := by
        simp only [pass1b, hflag, hstart, hfind, if_false, Bool.false_eq_true]
      have hfl : flagAgainstHistory c e =
          { c with is_conflict := true, conflict_type := some "ghost_ticket",
                   conflict_details := ghostDetail e,
                   conflict_start_iso := some hs, conflict_end_iso := some he' } := by
        rw [flagAgainstHistory, hp]
      refine ⟨hs, he', rfl, hpb, by rw [hpb, hfl], ?_, ?_, by rw [hpb, hfl], by rw [hpb, hfl]⟩
      · refine ⟨"Rebooked/ghost ticket conflict with submitted ticket ".data,
          (" for '" ++ e.title.getD "Unknown Session" ++ "'.").data, ?_⟩
        rw [hpb, hfl]
        show (ghostDetail e).data = _
        simp [ghostDetail, String.data_append]
      · refine ⟨("Rebooked/ghost ticket conflict with submitted ticket " ++
          e.ticket_id.getD "Unknown" ++ " for '").data, "'.".data, ?_⟩
        rw [hpb, hfl]
        show (ghostDetail e).data = _
        simp [ghostDetail, String.data_append]

/-- Closed instance of `pass1b_ghost_spec`: Scenario A — candidate at
School A, 15:00 (minute 900) for 60 minutes, history entry for a different
session id at the same school starting 15:30 (minute 930) for 60 minutes;
the candidate is flagged `ghost_ticket` with window `[930, 990)`. -/
theorem pass1b_ghost_spec_witness :
    ((pass1b
      [⟨some "different-session", some "Original booked time", some "School A",
        some "REQ12345", .parsed 930, some 60⟩]
      ⟨"cand-1", "Current booking", some "School A", some "T", some "Booked",
        some 900, some 60, false, false, "", none, none, none⟩).is_conflict = true ∧
    (pass1b
      [⟨some "different-session", some "Original booked time", some "School A",
        some "REQ12345", .parsed 930, some 60⟩]
      ⟨"cand-1", "Current booking", some "School A", some "T", some "Booked",
        some 900, some 60, false, false, "", none, none, none⟩).conflict_type
      = some "ghost_ticket") ∧
    (pass1b
      [⟨some "different-session", some "Original booked time", some "School A",
        some "REQ12345", .parsed 930, some 60⟩]
      ⟨"cand-1", "Current booking", some "School A", some "T", some "Booked",
        some 900, some 60, false, false, "", none, none, none⟩).conflict_start_iso
      = some 930 ∧
    (pass1b
      [⟨some "different-session", some "Original booked time", some "School A",
        some "REQ12345", .parsed 930, some 60⟩]
      ⟨"cand-1", "Current booking", some "School A", some "T", some "Booked",
        some 900, some 60, false, false, "", none, none, none⟩).conflict_end_iso
      = some 990 :=
  ⟨(pass1b_ghost_spec
      [⟨some "different-session", some "Original booked time", some "School A",
        some "REQ12345", .parsed 930, some 60⟩]
      ⟨"cand-1", "Current booking", some "School A", some "T", some "Booked",
        some 900, some 60, false, false, "", none, none, none⟩ 900 rfl rfl).1
      ⟨⟨some "different-session", some "Original booked time", some "School A",
        some "REQ12345", .parsed 930, some 60⟩, by simp, by decide⟩,
   by decide, by decide⟩

/-- C7 counterexample: a zero-duration candidate (minute 930, inside the
booked, ticket-requested existing session 900–960) *is* flagged, and so is
a negative-duration candidate (start 960, length −30, against an existing
session 900–1000); `length or 0` moreover keeps a negative length as-is.
This refutes "a zero or negative duration … produces a zero-width interval
that never satisfies the strict overlap test and therefore never conflicts
with anything". -/
theorem zero_width_counterexample :
    (check_for_time_conflicts
      [⟨"z", "Z", some "A", some "T", some "Booked", some 930, some 0,
        false, false, "", none, none, none⟩]
      [⟨"e1", "E1", some "A", some "T9", some " Booked ", some 900, some 60,
        true, false, "", none, none, none⟩] []).map (·.is_conflict) = [true]
    ∧ (check_for_time_conflicts
      [⟨"n", "N", some "A", some "T", some "Booked", some 960, some (-30),
        false, false, "", none, none, none⟩]
      [⟨"e2", "E2", some "A", some "T9", some "booked", some 900, some 100,
        true, false, "", none, none, none⟩] []).map (·.is_conflict) = [true]
    ∧ effectiveLength (some (-30)) = -30 := by
  refine ⟨by decide, by decide, rfl⟩

/-- C7 amended: `length or 0` coerces only a missing (`None`) length to 0
and keeps any other value, negative included; the resulting end is
`start + effectiveLength length`; and a zero-width candidate interval can
still satisfy the strict overlap test — pass 1 flags a zero-duration
candidate whose start instant lies strictly inside a matching existing
session's interval. -/
theorem zero_width_amended (ids : List String) (c e : Session) (cs es : Int)
    (hstart : c.start_time = some cs) (hzero : effectiveLength c.length = 0)
    (hes : e.start_time = some es)
    (hid : ids.contains e.s_id = false)
    (hsch : (c.school == e.school) = true)
    (hst : (normOpt e.status == "booked") = true)
    (hreq : e.gn_ticket_requested = true)
    (hlo : es < cs) (hhi : cs < sessionEnd es e.length) :
    (∀ n : Int, effectiveLength (some n) = n)
    ∧ effectiveLength none = 0
    ∧ (pass1 ids [e] c).is_conflict = true := by
  refine ⟨fun n => rfl, rfl, ?_⟩
  have hce : sessionEnd cs c.length = cs := by
    rw [sessionEnd, hzero, add_zero]
  have hmatch : pass1MatchB ids c.school cs (sessionEnd cs c.length) e = true := by
    rw [pass1MatchB, hes, hid, hsch, hst, hreq, hce]
    simp [hlo, hhi]
  have hp1 : pass1 ids [e] c = flagAgainstExisting c e := by
    simp only [pass1, hstart, List.find?, hmatch]
  rw [hp1, flagAgainstExisting, hes]

/-- Closed instance of `zero_width_amended`: the zero-duration candidate of
`zero_width_counterexample`. -/
theorem zero_width_amended_witness :
    (pass1 []
      [⟨"e1", "E1", some "A", some "T9", some " Booked ", some 900, some 60,
        true, false, "", none, none, none⟩]
      ⟨"z", "Z", some "A", some "T", some "Booked", some 930, some 0,
        false, false, "", none, none, none⟩).is_conflict = true :=
  (zero_width_amended []
    ⟨"z", "Z", some "A", some "T", some "Booked", some 930, some 0,
      false, false, "", none, none, none⟩
    ⟨"e1", "E1", some "A", some "T9", some " Booked ", some 900, some 60,
      true, false, "", none, none, none⟩ 930 900 rfl rfl rfl rfl rfl (by decide)
    rfl (by decide) (by decide)).2.2

/-!  Pass-2 structural lemmas and the intra-batch symmetry theorem.  -/

/-- A partner match forces the partner to be unflagged and to have a start
time. -/
theorem pass2PartnerB_unflagged {school : Option String} {cs ce : Int}
    {o : Session} (h : pass2PartnerB school cs ce o = true) :
    o.is_conflict = false ∧ ∃ os, o.start_time = some os := by
  rcases hos : o.start_time with _ | os
  · rw [pass2PartnerB, hos] at h
    exact absurd h (by simp)
  · rw [pass2PartnerB, hos] at h
    simp only [Bool.and_eq_true, Bool.not_eq_true'] at h
    exact ⟨h.1.1.1.1, os, rfl⟩

/-- The inner scan leaves every already-flagged suffix element in place. -/
theorem pass2Scan_flagged_preserved {c : Session} {cs ce : Int}
    {l : List Session} {c' : Session} {l' : List Session}
    (h : pass2Scan c cs ce l = some (c', l')) :
    ∀ (i : Nat) (x : Session), l[i]? = some x → x.is_conflict = true →
      l'[i]? = some x := by
  induction l generalizing c' l' with
  | nil => simp [pass2Scan] at h
  | cons o rest ih =>
      intro i x hx hflag
      rw [pass2Scan] at h
      rcases hp : pass2PartnerB c.school cs ce o with _ | _
      · rw [hp] at h
        simp only [Bool.false_eq_true, if_false] at h
        rcases hrec : pass2Scan c cs ce rest with _ | ⟨c₂, rest₂⟩ <;> rw [hrec] at h
        · exact absurd h (by simp)
        · simp only [Option.some.injEq, Prod.mk.injEq] at h
          obtain ⟨-, hl⟩ := h
          cases i with
          | zero =>
              rw [← hl]
              simpa using hx
          | succ j =>
              rw [← hl]
              simp only [List.getElem?_cons_succ] at hx ⊢
              exact ih hrec j x hx hflag
      · rw [hp] at h
        simp only [if_true] at h
        obtain ⟨hoc, os, hos⟩ := pass2PartnerB_unflagged hp
        rw [hos] at h
        simp only [Option.some.injEq, Prod.mk.injEq] at h
        obtain ⟨-, hl⟩ := h
        cases i with
        | zero =>
            simp only [List.getElem?_cons_zero, Option.some.injEq] at hx
            rw [← hx, hoc] at hflag
            cases hflag
        | succ j =>
            rw [← hl]
            simpa using hx

/-- The fueled outer loop leaves every already-flagged element in place. -/
theorem pass2GoF_flagged_preserved :
    ∀ (fuel : Nat) (l : List Session) (i : Nat) (x : Session),
    l[i]? = some x → x.is_conflict = true → (pass2GoF fuel l)[i]? = some x := by
  intro fuel
  induction fuel with
  | zero => intro l i x hx _; simpa [pass2GoF] using hx
  | succ fuel ih =>
      intro l i x hx hflag
      rcases l with _ | ⟨c, rest⟩
      · simpa [pass2GoF] using hx
      · rcases hst : c.start_time with _ | cs
        · rw [pass2GoF, hst]
          cases i with
          | zero => simpa using hx
          | succ j =>
              simp only [List.getElem?_cons_succ] at hx ⊢
              exact ih rest j x hx hflag
        · rcases hic : c.is_conflict with _ | _
          · rcases hel : bookedEligible c with _ | _
            · rw [pass2GoF, hst]
              simp only [hic, hel, Bool.false_eq_true, if_false, Bool.not_false, if_true]
              cases i with
              | zero => simpa using hx
              | succ j =>
                  simp only [List.getElem?_cons_succ] at hx ⊢
                  exact ih rest j x hx hflag
            · rw [pass2GoF, hst]
              simp only [hic, hel, Bool.false_eq_true, if_false, Bool.not_true]
              rcases hscan : pass2Scan c cs (sessionEnd cs c.length) rest
                  with _ | ⟨c₂, rest₂⟩
              · cases i with
                | zero => simpa using hx
                | succ j =>
                    simp only [List.getElem?_cons_succ] at hx ⊢
                    exact ih rest j x hx hflag
              · cases i with
                | zero =>
                    simp only [List.getElem?_cons_zero, Option.some.injEq] at hx
                    rw [← hx] at hflag
                    rw [hic] at hflag
                    cases hflag
                | succ j =>
                    simp only [List.getElem?_cons_succ] at hx ⊢
                    exact ih rest₂ j x
                      (pass2Scan_flagged_preserved hscan j x hx hflag) hflag
          · rw [pass2GoF, hst]
            simp only [hic, if_true]
            cases i with
            | zero => simpa using hx
            | succ j =>
                simp only [List.getElem?_cons_succ] at hx ⊢
                exact ih rest j x hx hflag

/-- When every element of `mid` fails the partner test and `b` passes it,
the inner scan returns the pair flagged against each other, leaving `mid`
and `post` untouched. -/
theorem pass2Scan_first (c b : Session) (cs ce bs : Int) (mid post : List Session)
    (hb_s : b.start_time = some bs)
    (hb : pass2PartnerB c.school cs ce b = true)
    (hmid : ∀ x ∈ mid, pass2PartnerB c.school cs ce x = false) :
    pass2Scan c cs ce (mid ++ b :: post) =
      some (flagBooked c bs (sessionEnd bs b.length) b.title,
            mid ++ (flagBooked b cs ce c.title) :: post) := by
  induction mid with
  | nil =>
      rw [List.nil_append, pass2Scan, hb]
      have hbc := (pass2PartnerB_unflagged hb).1
      simp only [if_true, hb_s, hbc, Bool.false_eq_true, if_false, List.nil_append]
  | cons m mid ih =>
      have hm := hmid m (by simp)
      rw [List.cons_append, pass2Scan, hm]
      simp only [Bool.false_eq_true, if_false]
      rw [ih (fun x hx => hmid x (by simp [hx]))]
      simp

/-- C3: pass 2 is symmetric.  If candidate `a` (with a start time,
unflagged, booked, not yet ticket-requested) finds its first partner `b`
(later in the batch, same school, unflagged, booked, not yet requested,
strictly overlapping) — "first" meaning no session between them passes the
partner test — then both ends are flagged with kind `time`, each with the
detail naming the other's title and the conflict window set to the other's
interval. -/
theorem pass2_intra_batch_symmetric (a b : Session) (mid post : List Session)
    (as bs : Int)
    (ha_s : a.start_time = some as) (ha_nc : a.is_conflict = false)
    (ha_el : bookedEligible a = true)
    (hb_s : b.start_time = some bs) (hb_nc : b.is_conflict = false)
    (hb_el : bookedEligible b = true)
    (hschool : (a.school == b.school) = true)
    (hov1 : as < sessionEnd bs b.length) (hov2 : bs < sessionEnd as a.length)
    (hmid : ∀ x ∈ mid, pass2PartnerB a.school as (sessionEnd as a.length) x = false) :
    (pass2Go (a :: mid ++ b :: post))[0]? =
      some (flagBooked a bs (sessionEnd bs b.length) b.title)
    ∧ (pass2Go (a :: mid ++ b :: post))[mid.length + 1]? =
      some (flagBooked b as (sessionEnd as a.length) a.title) := by
  have hpb : pass2PartnerB a.school as (sessionEnd as a.length) b = true := by
    rw [pass2PartnerB, hb_s, hb_nc, hb_el, hschool]
    simp [hov1, hov2]
  have hscan := pass2Scan_first a b as (sessionEnd as a.length) bs mid post
    hb_s hpb hmid
  have hkey : pass2Go (a :: mid ++ b :: post)
      = flagBooked a bs (sessionEnd bs b.length) b.title ::
        pass2GoF (mid ++ b :: post).length
          (mid ++ flagBooked b as (sessionEnd as a.length) a.title :: post) := by
    rw [pass2Go]
    simp only [List.length_cons, pass2GoF, List.append_eq, ha_s, ha_nc, ha_el, hscan,
      Bool.false_eq_true, if_false, Bool.not_true]
  refine ⟨by rw [hkey]; simp, ?_⟩
  rw [hkey]
  simp only [List.getElem?_cons_succ]
  apply pass2GoF_flagged_preserved
  · rw [List.getElem?_append_right (Nat.le_refl mid.length)]
    simp
  · rfl

/-- Closed instance of `pass2_intra_batch_symmetric`: Scenario B — two
booked, not-yet-requested candidates at the same school, 15:00–16:00
(minutes 900–960) and 15:30–16:30 (minutes 930–990); both are flagged
`time`, each referencing the other's title and interval. -/
theorem pass2_intra_batch_symmetric_witness :
    (pass2Go [⟨"b1", "S1", some "A", some "T1", some "Booked", some 900, some 60,
        false, false, "", none, none, none⟩,
      ⟨"b2", "S2", some "A", some "T2", some "Booked", some 930, some 60,
        false, false, "", none, none, none⟩])[0]? =
      some (flagBooked
        ⟨"b1", "S1", some "A", some "T1", some "Booked", some 900, some 60,
          false, false, "", none, none, none⟩ 930 (sessionEnd 930 (some 60)) "S2")
    ∧ (pass2Go [⟨"b1", "S1", some "A", some "T1", some "Booked", some 900, some 60,
        false, false, "", none, none, none⟩,
      ⟨"b2", "S2", some "A", some "T2", some "Booked", some 930, some 60,
        false, false, "", none, none, none⟩])[0 + 1]? =
      some (flagBooked
        ⟨"b2", "S2", some "A", some "T2", some "Booked", some 930, some 60,
          false, false, "", none, none, none⟩ 900 (sessionEnd 900 (some 60)) "S1") :=
  pass2_intra_batch_symmetric
    ⟨"b1", "S1", some "A", some "T1", some "Booked", some 900, some 60,
      false, false, "", none, none, none⟩
    ⟨"b2", "S2", some "A", some "T2", some "Booked", some 930, some 60,
      false, false, "", none, none, none⟩ [] []
    900 930 rfl rfl (by decide) rfl rfl (by decide) (by decide)
    (by decide) (by decide) (by simp)

/-!  No-start sessions are untouched by every pass.  -/

/-- A pass-3 partner match forces the partner to be unflagged and to have
a start time. -/
theorem pass3PartnerB_unflagged {tk : String} {cs ce : Int}
    {o : Session} (h : pass3PartnerB tk cs ce o = true) :
    o.is_conflict = false ∧ ∃ os, o.start_time = some os := by
  rcases hos : o.start_time with _ | os
  · rw [pass3PartnerB, hos] at h
    exact absurd h (by simp)
  · rw [pass3PartnerB, hos] at h
    simp only [Bool.and_eq_true, Bool.not_eq_true'] at h
    exact ⟨h.1.1.1, os, rfl⟩

/-- The pass-2 inner scan leaves every start-time-less element in place. -/
theorem pass2Scan_no_start_preserved {c : Session} {cs ce : Int}
    {l : List Session} {c' : Session} {l' : List Session}
    (h : pass2Scan c cs ce l = some (c', l')) :
    ∀ (i : Nat) (x : Session), l[i]? = some x → x.start_time = none →
      l'[i]? = some x := by
  induction l generalizing c' l' with
  | nil => simp [pass2Scan] at h
  | cons o rest ih =>
      intro i x hx hns
      rw [pass2Scan] at h
      rcases hp : pass2PartnerB c.school cs ce o with _ | _
      · rw [hp] at h
        simp only [Bool.false_eq_true, if_false] at h
        rcases hrec : pass2Scan c cs ce rest with _ | ⟨c₂, rest₂⟩ <;> rw [hrec] at h
        · exact absurd h (by simp)
        · simp only [Option.some.injEq, Prod.mk.injEq] at h
          obtain ⟨-, hl⟩ := h
          cases i with
          | zero =>
              rw [← hl]
              simpa using hx
          | succ j =>
              rw [← hl]
              simp only [List.getElem?_cons_succ] at hx ⊢
              exact ih hrec j x hx hns
      · rw [hp] at h
        simp only [if_true] at h
        obtain ⟨-, os, hos⟩ := pass2PartnerB_unflagged hp
        rw [hos] at h
        simp only [Option.some.injEq, Prod.mk.injEq] at h
        obtain ⟨-, hl⟩ := h
        cases i with
        | zero =>
            simp only [List.getElem?_cons_zero, Option.some.injEq] at hx
            rw [← hx] at hns
            rw [hos] at hns
            cases hns
        | succ j =>
            rw [← hl]
            simpa using hx

/-- The fueled pass-2 outer loop leaves every start-time-less element in
place. -/
theorem pass2GoF_no_start_preserved :
    ∀ (fuel : Nat) (l : List Session) (i : Nat) (x : Session),
    l[i]? = some x → x.start_time = none → (pass2GoF fuel l)[i]? = some x := by
  intro fuel
  induction fuel with
  | zero => intro l i x hx _; simpa [pass2GoF] using hx
  | succ fuel ih =>
      intro l i x hx hns
      rcases l with _ | ⟨c, rest⟩
      · simpa [pass2GoF] using hx
      · rcases hst : c.start_time with _ | cs
        · rw [pass2GoF, hst]
          cases i with
          | zero => simpa using hx
          | succ j =>
              simp only [List.getElem?_cons_succ] at hx ⊢
              exact ih rest j x hx hns
        · rcases hic : c.is_conflict with _ | _
          · rcases hel : bookedEligible c with _ | _
            · rw [pass2GoF, hst]
              simp only [hic, hel, Bool.false_eq_true, if_false, Bool.not_false, if_true]
              cases i with
              | zero => simpa using hx
              | succ j =>
                  simp only [List.getElem?_cons_succ] at hx ⊢
                  exact ih rest j x hx hns
            · rw [pass2GoF, hst]
              simp only [hic, hel, Bool.false_eq_true, if_false, Bool.not_true]
              rcases hscan : pass2Scan c cs (sessionEnd cs c.length) rest
                  with _ | ⟨c₂, rest₂⟩
              · cases i with
                | zero => simpa using hx
                | succ j =>
                    simp only [List.getElem?_cons_succ] at hx ⊢
                    exact ih rest j x hx hns
              · cases i with
                | zero =>
                    simp only [List.getElem?_cons_zero, Option.some.injEq] at hx
                    rw [← hx] at hns
                    rw [hst] at hns
                    cases hns
                | succ j =>
                    simp only [List.getElem?_cons_succ] at hx ⊢
                    exact ih rest₂ j x
                      (pass2Scan_no_start_preserved hscan j x hx hns) hns
          · rw [pass2GoF, hst]
            simp only [hic, if_true]
            cases i with
            | zero => simpa using hx
            | succ j =>
                simp only [List.getElem?_cons_succ] at hx ⊢
                exact ih rest j x hx hns

/-- The pass-3 inner scan leaves every start-time-less element in place. -/
theorem pass3Scan_no_start_preserved {c : Session} {tk : String} {cs ce : Int}
    {l : List Session} {c' : Session} {l' : List Session}
    (h : pass3Scan c tk cs ce l = some (c', l')) :
    ∀ (i : Nat) (x : Session), l[i]? = some x → x.start_time = none →
      l'[i]? = some x := by
  induction l generalizing c' l' with
  | nil => simp [pass3Scan] at h
  | cons o rest ih =>
      intro i x hx hns
      rw [pass3Scan] at h
      rcases hp : pass3PartnerB tk cs ce o with _ | _
      · rw [hp] at h
        simp only [Bool.false_eq_true, if_false] at h
        rcases hrec : pass3Scan c tk cs ce rest with _ | ⟨c₂, rest₂⟩ <;> rw [hrec] at h
        · exact absurd h (by simp)
        · simp only [Option.some.injEq, Prod.mk.injEq] at h
          obtain ⟨-, hl⟩ := h
          cases i with
          | zero =>
              rw [← hl]
              simpa using hx
          | succ j =>
              rw [← hl]
              simp only [List.getElem?_cons_succ] at hx ⊢
              exact ih hrec j x hx hns
      · rw [hp] at h
        simp only [if_true] at h
        obtain ⟨-, os, hos⟩ := pass3PartnerB_unflagged hp
        rw [hos] at h
        simp only [Option.some.injEq, Prod.mk.injEq] at h
        obtain ⟨-, hl⟩ := h
        cases i with
        | zero =>
            simp only [List.getElem?_cons_zero, Option.some.injEq] at hx
            rw [← hx] at hns
            rw [hos] at hns
            cases hns
        | succ j =>
            rw [← hl]
            simpa using hx

/-- The fueled pass-3 outer loop leaves every start-time-less element in
place. -/
theorem pass3GoF_no_start_preserved :
    ∀ (fuel : Nat) (l : List Session) (i : Nat) (x : Session),
    l[i]? = some x → x.start_time = none → (pass3GoF fuel l)[i]? = some x := by
  intro fuel
  induction fuel with
  | zero => intro l i x hx _; simpa [pass3GoF] using hx
  | succ fuel ih =>
      intro l i x hx hns
      rcases l with _ | ⟨c, rest⟩
      · simpa [pass3GoF] using hx
      · rcases hst : c.start_time with _ | cs
        · rw [pass3GoF, hst]
          cases i with
          | zero => simpa using hx
          | succ j =>
              simp only [List.getElem?_cons_succ] at hx ⊢
              exact ih rest j x hx hns
        · rcases hic : c.is_conflict with _ | _
          · rcases htk : normOpt c.teacher == "" with _ | _
            · rw [pass3GoF, hst]
              simp only [hic, htk, Bool.false_eq_true, if_false]
              rcases hscan : pass3Scan c (normOpt c.teacher) cs (sessionEnd cs c.length) rest
                  with _ | ⟨c₂, rest₂⟩
              · cases i with
                | zero => simpa using hx
                | succ j =>
                    simp only [List.getElem?_cons_succ] at hx ⊢
                    exact ih rest j x hx hns
              · cases i with
                | zero =>
                    simp only [List.getElem?_cons_zero, Option.some.injEq] at hx
                    rw [← hx] at hns
                    rw [hst] at hns
                    cases hns
                | succ j =>
                    simp only [List.getElem?_cons_succ] at hx ⊢
                    exact ih rest₂ j x
                      (pass3Scan_no_start_preserved hscan j x hx hns) hns
            · rw [pass3GoF, hst]
              simp only [hic, htk, Bool.false_eq_true, if_false, if_true]
              cases i with
              | zero => simpa using hx
              | succ j =>
                  simp only [List.getElem?_cons_succ] at hx ⊢
                  exact ih rest j x hx hns
          · rw [pass3GoF, hst]
            simp only [hic, if_true]
            cases i with
            | zero => simpa using hx
            | succ j =>
                simp only [List.getElem?_cons_succ] at hx ⊢
                exact ih rest j x hx hns

/-- The fueled pass-2 outer loop preserves the list length. -/
theorem pass2GoF_length : ∀ (fuel : Nat) (l : List Session),
    (pass2GoF fuel l).length = l.length := by
  intro fuel
  induction fuel with
  | zero => intro l; rw [pass2GoF]
  | succ fuel ih =>
      intro l
      rcases l with _ | ⟨c, rest⟩
      · rw [pass2GoF]
      · rw [pass2GoF]
        split
        · simp [ih]
        · split
          · simp [ih]
          · split
            · simp [ih]
            · split
              · next c₂ rest₂ hscan =>
                  simp only [List.length_cons, ih, pass2Scan_length hscan]
              · simp [ih]

/-- The fueled pass-3 outer loop preserves the list length. -/
theorem pass3GoF_length : ∀ (fuel : Nat) (l : List Session),
    (pass3GoF fuel l).length = l.length := by
  intro fuel
  induction fuel with
  | zero => intro l; rw [pass3GoF]
  | succ fuel ih =>
      intro l
      rcases l with _ | ⟨c, rest⟩
      · rw [pass3GoF]
      · rw [pass3GoF]
        split
        · simp [ih]
        · split
          · simp [ih]
          · split
            · simp [ih]
            · split
              · next c₂ rest₂ hscan =>
                  simp only [List.length_cons, ih, pass3Scan_length hscan]
              · simp [ih]

/-- A candidate without a start time comes out of the whole first loop
exactly reset. -/
theorem stage1_no_start (ids : List String) (ex : List Session)
    (hist : List LogEntry) {c : Session} (hns : c.start_time = none) :
    stage1 ids ex hist c = resetConflictFields c := by
  have h1 : (resetConflictFields c).start_time = none := hns
  have h2 : (resetConflictFields c).is_conflict = false := rfl
  simp only [stage1, pass1, pass1b, h1, h2, Bool.false_eq_true, if_false]

/-- C4: a candidate session with no start time is never flagged — after a
full detector run its slot holds exactly its reset copy (all annotation
fields cleared, identity fields untouched) — and the output list has the
same length as the input, so the session is still present. -/
theorem no_start_never_flagged (cands existing : List Session)
    (hist : List LogEntry) (i : Nat) (x : Session)
    (hx : cands[i]? = some x) (hns : x.start_time = none) :
    (check_for_time_conflicts cands existing hist)[i]? =
      some (resetConflictFields x)
    ∧ (check_for_time_conflicts cands existing hist).length = cands.length := by
  have hkey : check_for_time_conflicts cands existing hist =
      pass3Go (pass2Go (cands.map (stage1 (cands.map (·.s_id)) existing hist))) := rfl
  constructor
  · have h1 : (cands.map (stage1 (cands.map (·.s_id)) existing hist))[i]? =
        some (resetConflictFields x) := by
      rw [List.getElem?_map, hx, Option.map_some']
      rw [stage1_no_start _ _ _ hns]
    have hns' : (resetConflictFields x).start_time = none := hns
    rw [hkey]
    generalize hL : cands.map (stage1 (cands.map (·.s_id)) existing hist) = L at h1 ⊢
    rw [pass3Go, pass2Go]
    exact pass3GoF_no_start_preserved _ _ i _
      (pass2GoF_no_start_preserved L.length L i _ h1 hns') hns'
  · rw [hkey, pass3Go, pass2Go]
    rw [pass3GoF_length, pass2GoF_length, List.length_map]

/-- Closed instance of `no_start_never_flagged`: Scenario C — a candidate
with no start time whose school and title match an overlapping, booked,
ticket-requested existing session is still returned, unflagged and with
cleared annotation fields. -/
theorem no_start_never_flagged_witness :
    (check_for_time_conflicts
      [⟨"x", "E1", some "A", some "T", some "Booked", none, some 60,
        false, true, "junk", some "time", some 1, some 2⟩]
      [⟨"e1", "E1", some "A", some "T", some "Booked", some 900, some 60,
        true, false, "", none, none, none⟩] [])[0]? =
      some (resetConflictFields
        ⟨"x", "E1", some "A", some "T", some "Booked", none, some 60,
          false, true, "junk", some "time", some 1, some 2⟩)
    ∧ (check_for_time_conflicts
      [⟨"x", "E1", some "A", some "T", some "Booked", none, some 60,
        false, true, "junk", some "time", some 1, some 2⟩]
      [⟨"e1", "E1", some "A", some "T", some "Booked", some 900, some 60,
        true, false, "", none, none, none⟩] []).length = 1 :=
  no_start_never_flagged
    [⟨"x", "E1", some "A", some "T", some "Booked", none, some 60,
      false, true, "junk", some "time", some 1, some 2⟩]
    [⟨"e1", "E1", some "A", some "T", some "Booked", some 900, some 60,
      true, false, "", none, none, none⟩] [] 0
    ⟨"x", "E1", some "A", some "T", some "Booked", none, some 60,
      false, true, "junk", some "time", some 1, some 2⟩ rfl rfl

/-!  Idempotence: the detector only writes annotation fields and reads
only the identity fields, so a second run reproduces the first.  -/

/-- The identity (non-annotation) fields of a session: everything the
detector reads but never writes. -/
structure SessionCore where
  s_id : String
  title : String
  school : Option String
  teacher : Option String
  status : Option String
  start_time : Option Int
  length : Option Int
  gn_ticket_requested : Bool
  deriving Repr, DecidableEq

/-- Projection onto the identity fields. -/
def Session.core (c : Session) : SessionCore :=
  ⟨c.s_id, c.title, c.school, c.teacher, c.status, c.start_time, c.length,
   c.gn_ticket_requested⟩

theorem flagAgainstExisting_core (c e : Session) :
    (flagAgainstExisting c e).core = c.core := by
  rw [flagAgainstExisting]
  split <;> rfl

theorem flagAgainstHistory_core (c : Session) (e : LogEntry) :
    (flagAgainstHistory c e).core = c.core := by
  rw [flagAgainstHistory]
  split <;> rfl

theorem pass1_core (ids : List String) (ex : List Session) (c : Session) :
    (pass1 ids ex c).core = c.core := by
  rcases hst : c.start_time with _ | cs
  · simp only [pass1, hst]
  · simp only [pass1, hst]
    rcases hfind : ex.find? (pass1MatchB ids c.school cs (sessionEnd cs c.length))
        with _ | e
    · rfl
    · exact flagAgainstExisting_core c e

theorem pass1b_core (hist : List LogEntry) (c : Session) :
    (pass1b hist c).core = c.core := by
  rcases hic : c.is_conflict with _ | _
  · rcases hst : c.start_time with _ | cs
    · simp only [pass1b, hic, Bool.false_eq_true, if_false, hst]
    · simp only [pass1b, hic, Bool.false_eq_true, if_false, hst]
      rcases hfind : hist.find? (pass1bMatchB c.s_id c.school cs (sessionEnd cs c.length))
          with _ | e
      · rfl
      · exact flagAgainstHistory_core c e
  · simp only [pass1b, hic, if_true]

theorem stage1_core (ids : List String) (ex : List Session)
    (hist : List LogEntry) (c : Session) :
    (stage1 ids ex hist c).core = c.core := by
  rw [stage1, pass1b_core, pass1_core]
  rfl

theorem pass2Scan_core {c : Session} {cs ce : Int}
    {l : List Session} {c' : Session} {l' : List Session}
    (h : pass2Scan c cs ce l = some (c', l')) :
    c'.core = c.core ∧ l'.map Session.core = l.map Session.core := by
  induction l generalizing c' l' with
  | nil => simp [pass2Scan] at h
  | cons o rest ih =>
      rw [pass2Scan] at h
      rcases hp : pass2PartnerB c.school cs ce o with _ | _
      · rw [hp] at h
        simp only [Bool.false_eq_true, if_false] at h
        rcases hrec : pass2Scan c cs ce rest with _ | ⟨c₂, rest₂⟩ <;> rw [hrec] at h
        · exact absurd h (by simp)
        · simp only [Option.some.injEq, Prod.mk.injEq] at h
          obtain ⟨hc, hl⟩ := h
          obtain ⟨ihc, ihl⟩ := ih hrec
          subst hc
          rw [← hl]
          simp only [List.map_cons, ihl]
          exact ⟨ihc, trivial⟩
      · rw [hp] at h
        simp only [if_true] at h
        obtain ⟨-, os, hos⟩ := pass2PartnerB_unflagged hp
        rw [hos] at h
        simp only [Option.some.injEq, Prod.mk.injEq] at h
        obtain ⟨hc, hl⟩ := h
        subst hc
        rw [← hl]
        constructor
        · rfl
        · simp only [List.map_cons]
          rcases o.is_conflict with _ | _ <;> rfl

theorem pass2GoF_core : ∀ (fuel : Nat) (l : List Session),
    (pass2GoF fuel l).map Session.core = l.map Session.core := by
  intro fuel
  induction fuel with
  | zero => intro l; rw [pass2GoF]
  | succ fuel ih =>
      intro l
      rcases l with _ | ⟨c, rest⟩
      · rw [pass2GoF]
      · rw [pass2GoF]
        split
        · simp [ih]
        · split
          · simp [ih]
          · split
            · simp [ih]
            · split
              · next c₂ rest₂ hscan =>
                  obtain ⟨hc, hl⟩ := pass2Scan_core hscan
                  simp only [List.map_cons, ih, hl, hc]
              · simp [ih]

theorem pass3Scan_core {c : Session} {tk : String} {cs ce : Int}
    {l : List Session} {c' : Session} {l' : List Session}
    (h : pass3Scan c tk cs ce l = some (c', l')) :
    c'.core = c.core ∧ l'.map Session.core = l.map Session.core := by
  induction l generalizing c' l' with
  | nil => simp [pass3Scan] at h
  | cons o rest ih =>
      rw [pass3Scan] at h
      rcases hp : pass3PartnerB tk cs ce o with _ | _
      · rw [hp] at h
        simp only [Bool.false_eq_true, if_false] at h
        rcases hrec : pass3Scan c tk cs ce rest with _ | ⟨c₂, rest₂⟩ <;> rw [hrec] at h
        · exact absurd h (by simp)
        · simp only [Option.some.injEq, Prod.mk.injEq] at h
          obtain ⟨hc, hl⟩ := h
          obtain ⟨ihc, ihl⟩ := ih hrec
          subst hc
          rw [← hl]
          simp only [List.map_cons, ihl]
          exact ⟨ihc, trivial⟩
      · rw [hp] at h
        simp only [if_true] at h
        obtain ⟨-, os, hos⟩ := pass3PartnerB_unflagged hp
        rw [hos] at h
        simp only [Option.some.injEq, Prod.mk.injEq] at h
        obtain ⟨hc, hl⟩ := h
        subst hc
        rw [← hl]
        constructor
        · rfl
        · simp only [List.map_cons]
          rcases o.is_conflict with _ | _ <;> rfl

theorem pass3GoF_core : ∀ (fuel : Nat) (l : List Session),
    (pass3GoF fuel l).map Session.core = l.map Session.core := by
  intro fuel
  induction fuel with
  | zero => intro l; rw [pass3GoF]
  | succ fuel ih =>
      intro l
      rcases l with _ | ⟨c, rest⟩
      · rw [pass3GoF]
      · rw [pass3GoF]
        split
        · simp [ih]
        · split
          · simp [ih]
          · split
            · simp [ih]
            · split
              · next c₂ rest₂ hscan =>
                  obtain ⟨hc, hl⟩ := pass3Scan_core hscan
                  simp only [List.map_cons, ih, hl, hc]
              · simp [ih]

/-- Resetting depends only on the identity fields. -/
theorem reset_eq_of_core {c d : Session} (h : c.core = d.core) :
    resetConflictFields c = resetConflictFields d := by
  cases c
  cases d
  simp only [Session.core, SessionCore.mk.injEq] at h
  obtain ⟨rfl, rfl, rfl, rfl, rfl, rfl, rfl, rfl⟩ := h
  rfl

/-- The whole first loop depends only on the identity fields of the
candidate (the reset phase erases everything else before any read). -/
theorem stage1_congr (ids : List String) (ex : List Session)
    (hist : List LogEntry) {c d : Session} (h : c.core = d.core) :
    stage1 ids ex hist c = stage1 ids ex hist d := by
  rw [stage1, stage1, reset_eq_of_core h]

theorem map_stage1_congr (ids : List String) (ex : List Session)
    (hist : List LogEntry) :
    ∀ {cs ds : List Session}, cs.map Session.core = ds.map Session.core →
      cs.map (stage1 ids ex hist) = ds.map (stage1 ids ex hist) := by
  intro cs
  induction cs with
  | nil =>
      intro ds h
      cases ds
      · rfl
      · exact absurd h (by simp)
  | cons c rest ih =>
      intro ds h
      cases ds with
      | nil => exact absurd h (by simp)
      | cons d drest =>
          simp only [List.map_cons, List.cons.injEq] at h ⊢
          exact ⟨stage1_congr ids ex hist h.1, ih h.2⟩

/-- The detector never changes the identity fields. -/
theorem check_core (cands ex : List Session) (hist : List LogEntry) :
    (check_for_time_conflicts cands ex hist).map Session.core
      = cands.map Session.core := by
  have hkey : check_for_time_conflicts cands ex hist =
      pass3Go (pass2Go (cands.map (stage1 (cands.map (·.s_id)) ex hist))) := rfl
  rw [hkey, pass3Go, pass2Go, pass3GoF_core, pass2GoF_core, List.map_map]
  exact List.map_congr_left (fun c _ => stage1_core _ _ _ c)

/-- C5: the detector is idempotent — running `check_for_time_conflicts` a
second time on the already-annotated candidates (same existing sessions
and history) reproduces exactly the same annotated list, because every
invocation starts by resetting all annotation fields and reads nothing
else that a run can change. -/
theorem detector_idempotent (cands ex : List Session) (hist : List LogEntry) :
    check_for_time_conflicts (check_for_time_conflicts cands ex hist) ex hist
      = check_for_time_conflicts cands ex hist := by
  have hcore := check_core cands ex hist
  have hids : (check_for_time_conflicts cands ex hist).map (·.s_id)
      = cands.map (·.s_id) := by
    have h1 : (check_for_time_conflicts cands ex hist).map (·.s_id)
        = ((check_for_time_conflicts cands ex hist).map Session.core).map
            SessionCore.s_id := by
      rw [List.map_map]
      rfl
    rw [h1, hcore, List.map_map]
    rfl
  have h2 : check_for_time_conflicts (check_for_time_conflicts cands ex hist) ex hist
      = pass3Go (pass2Go ((check_for_time_conflicts cands ex hist).map
          (stage1 ((check_for_time_conflicts cands ex hist).map (·.s_id)) ex hist))) := rfl
  rw [h2, hids, map_stage1_congr _ _ _ hcore]
  rfl

/-!  Equivalence of the two detector transcriptions (claim C10).  -/

theorem mp_stage1_eq : MainPy.stage1 = stage1 := rfl

theorem mp_pass2Scan_eq (c : Session) (cs ce : Int) :
    ∀ l, MainPy.pass2Scan c cs ce l = pass2Scan c cs ce l := by
  intro l
  induction l with
  | nil => rfl
  | cons o rest ih =>
      rw [MainPy.pass2Scan, pass2Scan, ih]
      rfl

theorem mp_pass2GoF_eq : ∀ (fuel : Nat) (l : List Session),
    MainPy.pass2GoF fuel l = pass2GoF fuel l := by
  intro fuel
  induction fuel with
  | zero => intro l; rfl
  | succ fuel ih =>
      intro l
      rcases l with _ | ⟨c, rest⟩
      · rfl
      · simp only [MainPy.pass2GoF, pass2GoF, mp_pass2Scan_eq, ih]
        rfl

theorem mp_pass3Scan_eq (c : Session) (tk : String) (cs ce : Int) :
    ∀ l, MainPy.pass3Scan c tk cs ce l = pass3Scan c tk cs ce l := by
  intro l
  induction l with
  | nil => rfl
  | cons o rest ih =>
      rw [MainPy.pass3Scan, pass3Scan, ih]
      rfl

theorem mp_pass3GoF_eq : ∀ (fuel : Nat) (l : List Session),
    MainPy.pass3GoF fuel l = pass3GoF fuel l := by
  intro fuel
  induction fuel with
  | zero => intro l; rfl
  | succ fuel ih =>
      intro l
      rcases l with _ | ⟨c, rest⟩
      · rfl
      · simp only [MainPy.pass3GoF, pass3GoF, mp_pass3Scan_eq, ih]

theorem mp_pass2Go_eq (l : List Session) : MainPy.pass2Go l = pass2Go l := by
  rw [MainPy.pass2Go, pass2Go, mp_pass2GoF_eq]

theorem mp_pass3Go_eq (l : List Session) : MainPy.pass3Go l = pass3Go l := by
  rw [MainPy.pass3Go, pass3Go, mp_pass3GoF_eq]

/-- C10: the two conflict-detector implementations — the
`check_for_time_conflicts` of `src/conflict.py` and the one defined inside
`src/main.py` — agree on every input: identical annotated session lists,
hence identical `is_conflict`, `conflict_type`, `conflict_details` and
conflict-window fields on every candidate. -/
theorem detectors_equivalent (cands ex : List Session) (hist : List LogEntry) :
    MainPy.check_for_time_conflicts cands ex hist
      = check_for_time_conflicts cands ex hist := by
  have h1 : MainPy.check_for_time_conflicts cands ex hist
      = MainPy.pass3Go (MainPy.pass2Go (cands.map
          (MainPy.stage1 (cands.map (·.s_id)) ex hist))) := rfl
  rw [h1, mp_stage1_eq, mp_pass2Go_eq, mp_pass3Go_eq]
  rfl
